import Mathlib

/-!
Verification of the dose/risk computation model of the Cosmic Radiation
Risk Calculator (src/app.py).  The script is a straight-line arithmetic
pipeline: a proton-flux reading (live fetch with a fallback constant of
100) is scaled by a chain of multiplicative factors (material, shielding
thickness attenuation, location, solar cycle), summed over normal and
flare days, converted to a risk percentage, and adjusted by personal
factors.  Python floats are modelled as exact real arithmetic (ℝ), with
the dictionary lookups and the `np.interp` solar factor kept ℚ-valued so
that they stay executable; `np.exp` is `Real.exp`.  Dictionary lookups
that can raise `KeyError` are modelled as `Option`, and the estimator
returns `Except EstError DoseResult` where `EstError.InvalidConfiguration`
stands for the `KeyError` escaping the script.
-/

namespace App

/-- The only failure of the dose pipeline itself: a `KeyError` from one of
the two dictionary lookups (app.py lines 92 and 103), called
`InvalidConfiguration` in the specification. -/
inductive EstError
  | InvalidConfiguration
deriving DecidableEq

/-- Output of the dose model: `daily_dose` (line 109), `total_dose`
(line 112) and the personally adjusted `risk_percent` (lines 115–123). -/
structure DoseResult where
  daily_dose : ℝ
  total_dose : ℝ
  risk_percent : ℝ

/-- Where the flux reading came from: the live NOAA fetch or the
fallback constant (app.py lines 67–73). -/
inductive Source
  | Live
  | Fallback
deriving DecidableEq

/-- The flux reading handed to the dose model: the parsed float and its
provenance. -/
structure FluxReading where
  proton_flux : ℚ
  source : Source
deriving DecidableEq

/-- app.py line 91: `shield_factors = {'None': 1.0, 'Aluminum': 0.7,
'Polyethylene': 0.5}`; the lookup on line 92 raises `KeyError` (here
`none`) outside this closed set. -/
def shield_factors (m : String) : Option ℚ :=
  if m = "None" then some 1.0
  else if m = "Aluminum" then some 0.7
  else if m = "Polyethylene" then some 0.5
  else none

/-- app.py lines 98–103: `location_factors = {"Sea Level": 1,
"Airplane (~10 km)": 30, "ISS Orbit (~400 km)": 250}`; lookup raises
`KeyError` (here `none`) on an unknown key. -/
def location_factors (loc : String) : Option ℚ :=
  if loc = "Sea Level" then some 1
  else if loc = "Airplane (~10 km)" then some 30
  else if loc = "ISS Orbit (~400 km)" then some 250
  else none

/-- app.py line 106: `solar_factor = np.interp(solar_cycle, [0, 100],
[1.2, 0.8])`.  `np.interp` clamps outside the domain and interpolates
linearly inside it. -/
def solar_factor (x : ℚ) : ℚ :=
  if x < 0 then 1.2
  else if 100 < x then 0.8
  else 1.2 + (0.8 - 1.2) * (x - 0) / (100 - 0)

/-- app.py line 95: `attenuation_factor = np.exp(-0.1 * thickness_cm) if
shielding_material != "None" else 1.0`. -/
noncomputable def attenuation_factor (material : String) (thickness_cm : ℕ) : ℝ :=
  if material ≠ "None" then Real.exp (-0.1 * (thickness_cm : ℝ)) else 1.0

/-- app.py lines 80–84: `flare_days = min(2, mission_days)` when the
flare checkbox is set, else 0. -/
def flare_days (solar_flare : Bool) (mission_days : ℕ) : ℕ :=
  if solar_flare then min 2 mission_days else 0

/-- app.py lines 82/85: `normal_days = mission_days - flare_days` (with
flare off, `normal_days = mission_days`). -/
def normal_days (solar_flare : Bool) (mission_days : ℕ) : ℕ :=
  mission_days - flare_days solar_flare mission_days

/-- app.py lines 118–123: the three sequential personal-factor
multipliers on the risk percentage. -/
noncomputable def adjust_risk (risk : ℝ) (age : ℕ) (sex genetic_sensitivity : String) : ℝ :=
  let r1 := if 50 < age then risk * 1.1 else risk
  let r2 := if sex = "Female" then r1 * 1.2 else r1
  if genetic_sensitivity = "Yes" then r2 * 1.5 else r2

/-- app.py lines 80–123, the whole dose/risk pipeline as one function of
its inputs.  The two dictionary lookups can fail
(`InvalidConfiguration`); everything else is the arithmetic of lines 88,
95, 106, 109, 112, 115 and 118–123 verbatim. -/
noncomputable def estimate (flux : ℝ) (mission_days : ℕ) (shielding_material : String)
    (thickness_cm : ℕ) (location : String) (solar_cycle : ℚ) (solar_flare : Bool)
    (age : ℕ) (sex genetic_sensitivity : String) : Except EstError DoseResult :=
  match shield_factors shielding_material, location_factors location with
  | some material_factor, some location_factor =>
      let base_dose_per_day : ℝ := flux * 0.00005
      let daily_dose : ℝ := base_dose_per_day * (material_factor : ℝ) *
        attenuation_factor shielding_material thickness_cm * (location_factor : ℝ) *
        ((solar_factor solar_cycle : ℚ) : ℝ)
      let total_dose : ℝ :=
        daily_dose * (normal_days solar_flare mission_days : ℝ) +
          daily_dose * 10 * (flare_days solar_flare mission_days : ℝ)
      let risk_percent : ℝ := total_dose / 1000 * 5
      .ok ⟨daily_dose, total_dose, adjust_risk risk_percent age sex genetic_sensitivity⟩
  | _, _ => .error .InvalidConfiguration

/-! The flux fetch (app.py lines 65–73): `requests.get(url).json()` either
raises or yields a JSON document; `float(data[-1]['flux'])` indexes the
last element, looks up the `'flux'` field and converts it; any exception
in the `try` block falls back to `flux = 100`. -/

/-- A JSON value as returned by the data source.  Numeric leaves carry
the exact value that Python `float()` would produce; conversion of
non-numeric leaves is modelled as failure (the malformed-data case the
fallback path exists for). -/
inductive Json
  | num (q : ℚ)
  | str (s : String)
  | arr (xs : List Json)
  | obj (fields : List (String × Json))
  | null

/-- Python `data[-1]`: last element of a JSON array; on anything else the
subscript raises (modelled as `none`). -/
def Json.getLast : Json → Option Json
  | .arr xs => xs.getLast?
  | _ => none

/-- Python `x['flux']`-style field access on a JSON object; raises
(`none`) when the field is missing or the value is not an object. -/
def Json.getField : Json → String → Option Json
  | .obj fields, k => (fields.find? (fun p => p.1 = k)).map Prod.snd
  | _, _ => none

/-- Python `float(x)` on a JSON leaf: succeeds exactly on numeric values,
raises (`none`) on a non-convertible value. -/
def Json.toFloat : Json → Option ℚ
  | .num q => some q
  | _ => none

/-- The body of the `try` block (app.py lines 68–69): `none` when the
HTTP call or JSON parse raises (`response = none`) or when indexing,
field lookup or conversion fails on the returned document. -/
def tryFlux (response : Option Json) : Option ℚ :=
  response.bind fun data =>
    (data.getLast.bind fun x => x.getField "flux").bind Json.toFloat

/-- app.py lines 67–73: the flux actually used — the parsed live value on
success, the fallback constant 100 when any exception occurred. -/
def fetchFlux (response : Option Json) : FluxReading :=
  match tryFlux response with
  | some f => ⟨f, .Live⟩
  | none => ⟨100, .Fallback⟩

/-- The `DoseResult` produced by the successful branch of `estimate`,
with the two looked-up dictionary values passed explicitly; used to state
what `estimate` returns when both lookups succeed. -/
noncomputable def doseResultOf (flux : ℝ) (mission_days : ℕ) (shielding_material : String)
    (thickness_cm : ℕ) (material_factor location_factor : ℚ) (solar_cycle : ℚ)
    (solar_flare : Bool) (age : ℕ) (sex genetic_sensitivity : String) : DoseResult :=
  let base_dose_per_day : ℝ := flux * 0.00005
  let daily_dose : ℝ := base_dose_per_day * (material_factor : ℝ) *
    attenuation_factor shielding_material thickness_cm * (location_factor : ℝ) *
    ((solar_factor solar_cycle : ℚ) : ℝ)
  let total_dose : ℝ :=
    daily_dose * (normal_days solar_flare mission_days : ℝ) +
      daily_dose * 10 * (flare_days solar_flare mission_days : ℝ)
  let risk_percent : ℝ := total_dose / 1000 * 5
  ⟨daily_dose, total_dose, adjust_risk risk_percent age sex genetic_sensitivity⟩

/-- Concrete output of the pipeline for flux 100, 10 days, 5 cm of
aluminum, sea level, solar index 50, no flare, no personal multipliers:
daily dose 100·0.00005·0.7·exp(−0.5) = 0.0035·exp(−0.5), summed over
10 normal days. -/
noncomputable def aluminumSampleResult : DoseResult :=
  ⟨0.0035 * Real.exp (-0.5), 0.035 * Real.exp (-0.5), 0.000175 * Real.exp (-0.5)⟩

/-! ### Evaluation lemmas shared across the claims -/

lemma shield_factors_none : shield_factors "None" = some 1 := by
  simp only [shield_factors, String.reduceEq, reduceIte]
  norm_num

lemma shield_factors_aluminum : shield_factors "Aluminum" = some 0.7 := by
  simp only [shield_factors, String.reduceEq, reduceIte]

lemma location_factors_sea : location_factors "Sea Level" = some 1 := by
  simp only [location_factors, String.reduceEq, reduceIte]

lemma shield_factors_poly : shield_factors "Polyethylene" = some 0.5 := by
  simp only [shield_factors, String.reduceEq, reduceIte]

lemma location_factors_airplane : location_factors "Airplane (~10 km)" = some 30 := by
  simp only [location_factors, String.reduceEq, reduceIte]

lemma location_factors_iss : location_factors "ISS Orbit (~400 km)" = some 250 := by
  simp only [location_factors, String.reduceEq, reduceIte]

lemma shield_factors_isSome_iff (m : String) :
    (shield_factors m).isSome ↔ (m = "None" ∨ m = "Aluminum" ∨ m = "Polyethylene") := by
  unfold shield_factors
  split_ifs with h1 h2 h3 <;> simp_all

lemma location_factors_isSome_iff (loc : String) :
    (location_factors loc).isSome ↔
      (loc = "Sea Level" ∨ loc = "Airplane (~10 km)" ∨ loc = "ISS Orbit (~400 km)") := by
  unfold location_factors
  split_ifs with h1 h2 h3 <;> simp_all

lemma solar_factor_fifty : solar_factor 50 = 1 := by
  norm_num [solar_factor]

lemma attenuation_factor_none (t : ℕ) : attenuation_factor "None" t = 1 := by
  simp only [attenuation_factor, ne_eq, String.reduceEq, not_false_eq_true, reduceIte,
    not_true_eq_false]
  norm_num

lemma estimate_eq_ok (flux : ℝ) (d : ℕ) (m : String) (t : ℕ) (loc : String)
    (s : ℚ) (fl : Bool) (age : ℕ) (sex gen : String) (mf lf : ℚ)
    (hm : shield_factors m = some mf) (hl : location_factors loc = some lf) :
    estimate flux d m t loc s fl age sex gen =
      .ok (doseResultOf flux d m t mf lf s fl age sex gen) := by
  unfold estimate
  rw [hm, hl]
  rfl

lemma estimate_ok_elim (flux : ℝ) (d : ℕ) (m : String) (t : ℕ) (loc : String)
    (s : ℚ) (fl : Bool) (age : ℕ) (sex gen : String) (r : DoseResult)
    (h : estimate flux d m t loc s fl age sex gen = .ok r) :
    ∃ mf lf : ℚ, shield_factors m = some mf ∧ location_factors loc = some lf ∧
      r = doseResultOf flux d m t mf lf s fl age sex gen := by
  unfold estimate at h
  split at h
  · rename_i mf lf hm hl
    injection h with h'
    exact ⟨mf, lf, hm, hl, h'.symm⟩
  · exact absurd h (by simp)

/-! ### Claims -/

/-- C1: with flux = 100, duration 180 days, no shielding, sea level,
solar cycle index 50 and no flare (personal factors triggering no
multiplier: age 30 ≤ 50, Male, no genetic sensitivity), the estimator
yields daily_dose = 0.005, total_dose = 0.9 mSv and
risk_percent = 0.0045. -/
theorem C1_baseline_scenario :
    estimate 100 180 "None" 0 "Sea Level" 50 false 30 "Male" "No" =
      .ok ⟨0.005, 0.9, 0.0045⟩ := by
  rw [estimate, shield_factors_none, location_factors_sea]
  simp only [attenuation_factor_none, solar_factor_fifty, flare_days, normal_days,
    adjust_risk, String.reduceEq, reduceIte]
  norm_num [String.reduceEq]

/-- C2: for every input on which the estimator succeeds, the risk
percentage before the personal-factor adjustments equals
total_dose × 0.005 — i.e. the reported risk is
`adjust_risk (total_dose * 0.005)`, line 115's `(total_dose / 1000) * 5`
being exactly proportionality with constant 0.005. -/
theorem C2_risk_proportional_to_dose (flux : ℝ) (d : ℕ) (m : String) (t : ℕ)
    (loc : String) (s : ℚ) (fl : Bool) (age : ℕ) (sex gen : String) (r : DoseResult)
    (h : estimate flux d m t loc s fl age sex gen = .ok r) :
    r.risk_percent = adjust_risk (r.total_dose * 0.005) age sex gen := by
  unfold estimate at h
  split at h
  · injection h with h'
    subst h'
    have : ∀ total : ℝ, total / 1000 * 5 = total * 0.005 := by
      intro total
      norm_num
      ring
    rw [this]
  · exact absurd h (by simp)

/-- C2 witness: at flux = 200, 10 days, no shielding, sea level, solar
index 0, no flare, age 60, Female, genetic sensitivity — the estimator
returns risk 0.001188, which equals the adjusted total_dose × 0.005. -/
theorem C2_witness :
    estimate 200 10 "None" 0 "Sea Level" 0 false 60 "Female" "Yes" =
      .ok ⟨0.012, 0.12, 0.001188⟩ ∧
    (DoseResult.mk 0.012 0.12 0.001188).risk_percent =
      adjust_risk ((DoseResult.mk 0.012 0.12 0.001188).total_dose * 0.005) 60 "Female" "Yes" := by
  have h : estimate 200 10 "None" 0 "Sea Level" 0 false 60 "Female" "Yes" =
      .ok ⟨0.012, 0.12, 0.001188⟩ := by
    rw [estimate, shield_factors_none, location_factors_sea]
    simp only [attenuation_factor_none, flare_days, normal_days, adjust_risk,
      String.reduceEq, reduceIte]
    norm_num [solar_factor]
  exact ⟨h, C2_risk_proportional_to_dose 200 10 "None" 0 "Sea Level" 0 false 60
    "Female" "Yes" ⟨0.012, 0.12, 0.001188⟩ h⟩

/-- C3: the three personal-factor multipliers are independent and
multiplicative — the adjusted risk is the base risk times
(1.1 if age > 50 else 1) times (1.2 if Female else 1) times
(1.5 if genetically sensitive else 1), a product in which order is
irrelevant; in particular risk(age 60, Female, sensitive) =
base × 1.1 × 1.2 × 1.5, and factors whose condition is false leave the
risk unchanged. -/
theorem C3_personal_multipliers_compose (r : ℝ) (age : ℕ) (sex gen : String) :
    adjust_risk r age sex gen =
      r * (if 50 < age then 1.1 else 1) * (if sex = "Female" then 1.2 else 1) *
        (if gen = "Yes" then 1.5 else 1) ∧
    adjust_risk r 60 "Female" "Yes" = r * 1.1 * 1.2 * 1.5 ∧
    adjust_risk r 30 "Male" "No" = r := by
  refine ⟨?_, ?_, ?_⟩
  · unfold adjust_risk
    split_ifs <;> ring
  · norm_num [adjust_risk, String.reduceEq]
  · simp only [adjust_risk, String.reduceEq, reduceIte, Nat.reduceLT]

/-- C4: on the slider domain [0, 100] the solar factor is the strictly
decreasing linear function 1.2 − 0.004 × index, with value 1.2 at 0,
0.8 at 100 and 1.0 at 50. -/
theorem C4_solar_factor_linear_decreasing :
    (∀ x : ℚ, 0 ≤ x → x ≤ 100 → solar_factor x = 1.2 - 0.004 * x) ∧
    solar_factor 0 = 1.2 ∧ solar_factor 100 = 0.8 ∧ solar_factor 50 = 1 ∧
    (∀ x y : ℚ, 0 ≤ x → x < y → y ≤ 100 → solar_factor y < solar_factor x) := by
  have hlin : ∀ x : ℚ, 0 ≤ x → x ≤ 100 → solar_factor x = 1.2 - 0.004 * x := by
    intro x hx hx'
    rw [solar_factor, if_neg (not_lt.mpr hx), if_neg (not_lt.mpr hx')]
    ring
  refine ⟨hlin, ?_, ?_, solar_factor_fifty, ?_⟩
  · rw [hlin 0 le_rfl (by norm_num)]; norm_num
  · rw [hlin 100 (by norm_num) le_rfl]; norm_num
  · intro x y hx hxy hy
    rw [hlin x hx (le_of_lt (lt_of_lt_of_le hxy hy)), hlin y (le_of_lt (lt_of_le_of_lt hx hxy)) hy]
    nlinarith

/-- C4 witness: the linear form and strict decrease at the concrete pair
30 < 60 of the domain. -/
theorem C4_witness :
    (0:ℚ) ≤ 30 ∧ (30:ℚ) ≤ 100 ∧ solar_factor 30 = 1.2 - 0.004 * 30 ∧
      (30:ℚ) < 60 ∧ (60:ℚ) ≤ 100 ∧ solar_factor 60 < solar_factor 30 :=
  ⟨by norm_num, by norm_num,
    C4_solar_factor_linear_decreasing.1 30 (by norm_num) (by norm_num),
    by norm_num, by norm_num,
    C4_solar_factor_linear_decreasing.2.2.2.2 30 60 (by norm_num) (by norm_num) (by norm_num)⟩

/-- C5: with a simulated flare, 10 mission days, flux 100, no shielding,
sea level and solar index 50, the split is flare_days = 2 and
normal_days = 8, the daily dose is 0.005, and the total dose is
0.005×8 + 0.005×10×2 = 0.14 mSv — the flare multiplies the daily dose by
10 on its days only. -/
theorem C5_flare_scenario :
    flare_days true 10 = 2 ∧ normal_days true 10 = 8 ∧
    ∃ r : DoseResult,
      estimate 100 10 "None" 0 "Sea Level" 50 true 30 "Male" "No" = .ok r ∧
        r.daily_dose = 0.005 ∧ r.total_dose = 0.14 := by
  refine ⟨rfl, rfl, ⟨0.005, 0.14, 0.0007⟩, ?_, rfl, rfl⟩
  rw [estimate, shield_factors_none, location_factors_sea]
  simp only [attenuation_factor_none, solar_factor_fifty, flare_days, normal_days,
    adjust_risk, String.reduceEq, reduceIte]
  norm_num

/-- C6: with the flare off, total_dose is linear in the mission duration —
doubling duration_days with all other parameters fixed exactly doubles
total_dose. -/
theorem C6_total_dose_linear_in_duration (flux : ℝ) (d : ℕ) (m : String) (t : ℕ)
    (loc : String) (s : ℚ) (age : ℕ) (sex gen : String) (r₁ r₂ : DoseResult)
    (h₁ : estimate flux d m t loc s false age sex gen = .ok r₁)
    (h₂ : estimate flux (2 * d) m t loc s false age sex gen = .ok r₂) :
    r₂.total_dose = 2 * r₁.total_dose := by
  obtain ⟨mf, lf, hm, hl, hr₁⟩ := estimate_ok_elim _ _ _ _ _ _ _ _ _ _ _ h₁
  obtain ⟨mf', lf', hm', hl', hr₂⟩ := estimate_ok_elim _ _ _ _ _ _ _ _ _ _ _ h₂
  rw [hm] at hm'
  rw [hl] at hl'
  injection hm' with emf
  injection hl' with elf
  subst emf
  subst elf
  rw [hr₁, hr₂]
  simp only [doseResultOf, normal_days, flare_days, Bool.false_eq_true, reduceIte,
    Nat.sub_zero, Nat.cast_zero, mul_zero, add_zero, Nat.cast_mul, Nat.cast_ofNat]
  ring

/-- C6 witness: doubling a 5-day mission to 10 days doubles the total
dose (0.025 mSv to 0.05 mSv). -/
theorem C6_witness :
    estimate 100 5 "None" 0 "Sea Level" 50 false 30 "Male" "No" =
        .ok ⟨0.005, 0.025, 0.000125⟩ ∧
      estimate 100 (2 * 5) "None" 0 "Sea Level" 50 false 30 "Male" "No" =
        .ok ⟨0.005, 0.05, 0.00025⟩ ∧
      (DoseResult.mk 0.005 0.05 0.00025).total_dose =
        2 * (DoseResult.mk 0.005 0.025 0.000125).total_dose := by
  have h₁ : estimate 100 5 "None" 0 "Sea Level" 50 false 30 "Male" "No" =
      .ok ⟨0.005, 0.025, 0.000125⟩ := by
    rw [estimate, shield_factors_none, location_factors_sea]
    simp only [attenuation_factor_none, solar_factor_fifty, flare_days, normal_days,
      adjust_risk, String.reduceEq, reduceIte]
    norm_num
  have h₂ : estimate (100 : ℝ) (2 * 5) "None" 0 "Sea Level" 50 false 30 "Male" "No" =
      .ok ⟨0.005, 0.05, 0.00025⟩ := by
    rw [estimate, shield_factors_none, location_factors_sea]
    simp only [attenuation_factor_none, solar_factor_fifty, flare_days, normal_days,
      adjust_risk, String.reduceEq, reduceIte]
    norm_num
  exact ⟨h₁, h₂, C6_total_dose_linear_in_duration 100 5 "None" 0 "Sea Level" 50 30
    "Male" "No" ⟨0.005, 0.025, 0.000125⟩ ⟨0.005, 0.05, 0.00025⟩ h₁ h₂⟩

/-- C7: the two dictionary lookups succeed exactly on their closed key
sets, with the values None→1.0, Aluminum→0.7, Polyethylene→0.5 and
Sea Level→1, Airplane→30, ISS Orbit→250; the estimator fails with
`InvalidConfiguration` exactly when the material or the location is
outside its closed set, and returns a result exactly when both are
inside. -/
theorem C7_closed_lookup_sets :
    (∀ m : String, (shield_factors m).isSome ↔
      (m = "None" ∨ m = "Aluminum" ∨ m = "Polyethylene")) ∧
    shield_factors "None" = some 1 ∧ shield_factors "Aluminum" = some 0.7 ∧
    shield_factors "Polyethylene" = some 0.5 ∧
    (∀ loc : String, (location_factors loc).isSome ↔
      (loc = "Sea Level" ∨ loc = "Airplane (~10 km)" ∨ loc = "ISS Orbit (~400 km)")) ∧
    location_factors "Sea Level" = some 1 ∧ location_factors "Airplane (~10 km)" = some 30 ∧
    location_factors "ISS Orbit (~400 km)" = some 250 ∧
    (∀ (flux : ℝ) (d : ℕ) (m : String) (t : ℕ) (loc : String) (s : ℚ) (fl : Bool)
      (age : ℕ) (sex gen : String),
      (estimate flux d m t loc s fl age sex gen = .error .InvalidConfiguration ↔
        ¬((m = "None" ∨ m = "Aluminum" ∨ m = "Polyethylene") ∧
          (loc = "Sea Level" ∨ loc = "Airplane (~10 km)" ∨ loc = "ISS Orbit (~400 km)"))) ∧
      ((∃ r, estimate flux d m t loc s fl age sex gen = .ok r) ↔
        ((m = "None" ∨ m = "Aluminum" ∨ m = "Polyethylene") ∧
          (loc = "Sea Level" ∨ loc = "Airplane (~10 km)" ∨ loc = "ISS Orbit (~400 km)")))) := by
  refine ⟨shield_factors_isSome_iff, shield_factors_none, shield_factors_aluminum,
    shield_factors_poly, location_factors_isSome_iff, location_factors_sea,
    location_factors_airplane, location_factors_iss, ?_⟩
  intro flux d m t loc s fl age sex gen
  constructor
  · constructor
    · intro h hmem
      obtain ⟨hmm, hml⟩ := hmem
      obtain ⟨mf, hmf⟩ := Option.isSome_iff_exists.mp ((shield_factors_isSome_iff m).mpr hmm)
      obtain ⟨lf, hlf⟩ := Option.isSome_iff_exists.mp ((location_factors_isSome_iff loc).mpr hml)
      rw [estimate_eq_ok flux d m t loc s fl age sex gen mf lf hmf hlf] at h
      exact Except.noConfusion h
    · intro hmem
      unfold estimate
      split
      · rename_i mf lf hmf hlf
        exact absurd ⟨(shield_factors_isSome_iff m).mp (hmf ▸ rfl),
          (location_factors_isSome_iff loc).mp (hlf ▸ rfl)⟩ hmem
      · rfl
  · constructor
    · rintro ⟨r, hr⟩
      obtain ⟨mf, lf, hmf, hlf, _⟩ := estimate_ok_elim _ _ _ _ _ _ _ _ _ _ _ hr
      exact ⟨(shield_factors_isSome_iff m).mp (hmf ▸ rfl),
        (location_factors_isSome_iff loc).mp (hlf ▸ rfl)⟩
    · rintro ⟨hmm, hml⟩
      obtain ⟨mf, hmf⟩ := Option.isSome_iff_exists.mp ((shield_factors_isSome_iff m).mpr hmm)
      obtain ⟨lf, hlf⟩ := Option.isSome_iff_exists.mp ((location_factors_isSome_iff loc).mpr hml)
      exact ⟨_, estimate_eq_ok flux d m t loc s fl age sex gen mf lf hmf hlf⟩

/-- C8: whenever the fetch/parse pipeline fails — the HTTP call or JSON
parse raises (`response = none`), or the document is malformed (no last
array element, missing `flux` field, non-convertible value), i.e.
`tryFlux response = none` — the reading used is exactly flux = 100 with
source = Fallback, and the estimator run on it is exactly the estimator
run on 100: the failure is never propagated. -/
theorem C8_fallback_on_failure (response : Option Json) (d : ℕ) (m : String) (t : ℕ)
    (loc : String) (s : ℚ) (fl : Bool) (age : ℕ) (sex gen : String)
    (h : tryFlux response = none) :
    (fetchFlux response).proton_flux = 100 ∧
    (fetchFlux response).source = Source.Fallback ∧
    estimate ((fetchFlux response).proton_flux : ℝ) d m t loc s fl age sex gen =
      estimate 100 d m t loc s fl age sex gen := by
  have hf : fetchFlux response = ⟨100, .Fallback⟩ := by
    rw [fetchFlux, h]
  rw [hf]
  refine ⟨rfl, rfl, ?_⟩
  norm_num

/-- C8 witness: a response whose last element has no `flux` field falls
back to flux 100 / Fallback, and the estimator consumes it as 100. -/
theorem C8_witness :
    tryFlux (some (Json.arr [Json.obj [("time", Json.num 3)]])) = none ∧
    (fetchFlux (some (Json.arr [Json.obj [("time", Json.num 3)]]))).proton_flux = 100 ∧
    (fetchFlux (some (Json.arr [Json.obj [("time", Json.num 3)]]))).source = Source.Fallback ∧
    estimate ((fetchFlux (some (Json.arr [Json.obj [("time", Json.num 3)]]))).proton_flux : ℝ)
        180 "None" 0 "Sea Level" 50 false 30 "Male" "No" =
      estimate 100 180 "None" 0 "Sea Level" 50 false 30 "Male" "No" := by
  have h := C8_fallback_on_failure (some (Json.arr [Json.obj [("time", Json.num 3)]]))
    180 "None" 0 "Sea Level" 50 false 30 "Male" "No" rfl
  exact ⟨rfl, h.1, h.2.1, h.2.2⟩

/-! C9 claims the outputs are never negative over the declared domains,
with the flux reading only required to be "a float".  The code puts no
sign constraint on the parsed flux, and a negative flux (e.g. an
instrument fill value) makes every output negative, so the claim as
stated is refuted; it holds as soon as the flux is nonnegative. -/

/-- C9 counterexample: all declared integer/enum domains are respected
(180 days, no shielding with thickness 0, sea level, solar index 50,
age 30, Male, no sensitivity) but the float flux −100 drives daily, total
and risk negative. -/
theorem C9_counterexample_negative_flux :
    ∃ r : DoseResult,
      estimate (-100) 180 "None" 0 "Sea Level" 50 false 30 "Male" "No" = .ok r ∧
        r.daily_dose < 0 ∧ r.total_dose < 0 ∧ r.risk_percent < 0 := by
  refine ⟨⟨-0.005, -0.9, -0.0045⟩, ?_, by norm_num, by norm_num, by norm_num⟩
  rw [estimate, shield_factors_none, location_factors_sea]
  simp only [attenuation_factor_none, solar_factor_fifty, flare_days, normal_days,
    adjust_risk, String.reduceEq, reduceIte]
  norm_num

lemma shield_factors_nonneg (m : String) (mf : ℚ) (h : shield_factors m = some mf) :
    0 ≤ mf := by
  unfold shield_factors at h
  split_ifs at h <;> injection h with h' <;> rw [← h'] <;> norm_num

lemma location_factors_nonneg (loc : String) (lf : ℚ) (h : location_factors loc = some lf) :
    0 ≤ lf := by
  unfold location_factors at h
  split_ifs at h <;> injection h with h' <;> rw [← h'] <;> norm_num

lemma solar_factor_bounds (x : ℚ) : 0.8 ≤ solar_factor x ∧ solar_factor x ≤ 1.2 := by
  unfold solar_factor
  split_ifs with h1 h2
  · norm_num
  · norm_num
  · push_neg at h1 h2
    constructor <;> nlinarith

lemma attenuation_factor_pos (m : String) (t : ℕ) : 0 < attenuation_factor m t := by
  unfold attenuation_factor
  split_ifs
  · exact Real.exp_pos _
  · norm_num

lemma attenuation_factor_le_one (m : String) (t : ℕ) : attenuation_factor m t ≤ 1 := by
  unfold attenuation_factor
  split_ifs
  · rw [Real.exp_le_one_iff]
    have : (0:ℝ) ≤ (t : ℝ) := Nat.cast_nonneg t
    nlinarith
  · norm_num

lemma adjust_risk_nonneg (risk : ℝ) (age : ℕ) (sex gen : String) (h : 0 ≤ risk) :
    0 ≤ adjust_risk risk age sex gen := by
  unfold adjust_risk
  split_ifs <;> nlinarith

/-- C9 (amended): over the declared domains and a nonnegative flux
reading, daily_dose, total_dose and risk_percent are all nonnegative. -/
theorem C9_outputs_nonneg (flux : ℝ) (d : ℕ) (m : String) (t : ℕ) (loc : String)
    (s : ℚ) (fl : Bool) (age : ℕ) (sex gen : String) (r : DoseResult)
    (hflux : 0 ≤ flux) (h : estimate flux d m t loc s fl age sex gen = .ok r) :
    0 ≤ r.daily_dose ∧ 0 ≤ r.total_dose ∧ 0 ≤ r.risk_percent := by
  obtain ⟨mf, lf, hm, hl, hr⟩ := estimate_ok_elim _ _ _ _ _ _ _ _ _ _ _ h
  subst hr
  have hmf : (0:ℝ) ≤ (mf : ℚ) := by exact_mod_cast shield_factors_nonneg m mf hm
  have hlf : (0:ℝ) ≤ (lf : ℚ) := by exact_mod_cast location_factors_nonneg loc lf hl
  have hsf : (0:ℝ) ≤ ((solar_factor s : ℚ) : ℝ) := by
    have := (solar_factor_bounds s).1
    have : (0:ℚ) ≤ solar_factor s := by linarith
    exact_mod_cast this
  have hatt : (0:ℝ) ≤ attenuation_factor m t := (attenuation_factor_pos m t).le
  have hdaily : 0 ≤ flux * 0.00005 * (mf : ℚ) * attenuation_factor m t * (lf : ℚ) *
      ((solar_factor s : ℚ) : ℝ) := by positivity
  have htotal : 0 ≤ flux * 0.00005 * (mf : ℚ) * attenuation_factor m t * (lf : ℚ) *
        ((solar_factor s : ℚ) : ℝ) * (normal_days fl d : ℝ) +
      flux * 0.00005 * (mf : ℚ) * attenuation_factor m t * (lf : ℚ) *
        ((solar_factor s : ℚ) : ℝ) * 10 * (flare_days fl d : ℝ) := by positivity
  simp only [doseResultOf]
  exact ⟨hdaily, htotal, adjust_risk_nonneg _ age sex gen (by positivity)⟩

/-- C9 witness (for the amended claim): the baseline scenario with
nonnegative flux 100 has nonnegative outputs. -/
theorem C9_witness :
    (0:ℝ) ≤ 100 ∧
    estimate 100 180 "None" 0 "Sea Level" 50 false 30 "Male" "No" =
      .ok ⟨0.005, 0.9, 0.0045⟩ ∧
    (0:ℝ) ≤ (DoseResult.mk 0.005 0.9 0.0045).daily_dose ∧
    (0:ℝ) ≤ (DoseResult.mk 0.005 0.9 0.0045).total_dose ∧
    (0:ℝ) ≤ (DoseResult.mk 0.005 0.9 0.0045).risk_percent := by
  have hok : estimate (100:ℝ) 180 "None" 0 "Sea Level" 50 false 30 "Male" "No" =
      .ok ⟨0.005, 0.9, 0.0045⟩ := by
    rw [estimate, shield_factors_none, location_factors_sea]
    simp only [attenuation_factor_none, solar_factor_fifty, flare_days, normal_days,
      adjust_risk, String.reduceEq, reduceIte]
    norm_num
  have h := C9_outputs_nonneg 100 180 "None" 0 "Sea Level" 50 false 30 "Male" "No"
    ⟨0.005, 0.9, 0.0045⟩ (by norm_num) hok
  exact ⟨by norm_num, hok, h.1, h.2.1, h.2.2⟩

/-- C10: for a nonnegative flux and fixed thickness, location, solar
index, duration and personal factors, shielding with Aluminum or
Polyethylene never increases the daily dose over no shielding: the
material factor (0.7 or 0.5) and the attenuation factor exp(−0.1·t) are
both at most 1. -/
theorem C10_shielding_never_increases_dose (flux : ℝ) (d : ℕ) (t : ℕ) (loc : String)
    (s : ℚ) (fl : Bool) (age : ℕ) (sex gen : String) (m : String) (r₀ r₁ : DoseResult)
    (hflux : 0 ≤ flux) (hmat : m = "Aluminum" ∨ m = "Polyethylene")
    (h₀ : estimate flux d "None" t loc s fl age sex gen = .ok r₀)
    (h₁ : estimate flux d m t loc s fl age sex gen = .ok r₁) :
    r₁.daily_dose ≤ r₀.daily_dose := by
  obtain ⟨mf₀, lf₀, hm₀, hl₀, hr₀⟩ := estimate_ok_elim _ _ _ _ _ _ _ _ _ _ _ h₀
  obtain ⟨mf₁, lf₁, hm₁, hl₁, hr₁⟩ := estimate_ok_elim _ _ _ _ _ _ _ _ _ _ _ h₁
  rw [shield_factors_none] at hm₀
  injection hm₀ with e₀
  rw [hl₀] at hl₁
  injection hl₁ with e₁
  subst e₁
  have hmf₁nn : (0:ℚ) ≤ mf₁ := shield_factors_nonneg m mf₁ hm₁
  have hmf₁le : mf₁ ≤ 1 := by
    rcases hmat with h | h <;> subst h
    · rw [shield_factors_aluminum] at hm₁
      injection hm₁ with e
      rw [← e]
      norm_num
    · rw [shield_factors_poly] at hm₁
      injection hm₁ with e
      rw [← e]
      norm_num
  have hlfnn : (0:ℚ) ≤ lf₀ := location_factors_nonneg loc lf₀ hl₀
  have hsfnn : (0:ℚ) ≤ solar_factor s := le_trans (by norm_num) (solar_factor_bounds s).1
  subst hr₀ hr₁
  simp only [doseResultOf, attenuation_factor_none, ← e₀]
  have key : ∀ a lc sf mf att : ℝ, 0 ≤ a → 0 ≤ lc → 0 ≤ sf → 0 ≤ mf → mf ≤ 1 →
      0 ≤ att → att ≤ 1 → a * mf * att * lc * sf ≤ a * 1 * 1 * lc * sf := by
    intro a lc sf mf att ha hlc hsf hmf hmf1 hatt hatt1
    have h1 : mf * att ≤ 1 := mul_le_one₀ hmf1 hatt hatt1
    calc a * mf * att * lc * sf = a * lc * sf * (mf * att) := by ring
      _ ≤ a * lc * sf * 1 := mul_le_mul_of_nonneg_left h1 (by positivity)
      _ = a * 1 * 1 * lc * sf := by ring
  have := key (flux * 0.00005) (lf₀ : ℚ) ((solar_factor s : ℚ) : ℝ) (mf₁ : ℚ)
    (attenuation_factor m t) (by positivity) (by exact_mod_cast hlfnn)
    (by exact_mod_cast hsfnn) (by exact_mod_cast hmf₁nn) (by exact_mod_cast hmf₁le)
    (attenuation_factor_pos m t).le (attenuation_factor_le_one m t)
  calc flux * 0.00005 * (mf₁ : ℚ) * attenuation_factor m t * (lf₀ : ℚ) *
        ((solar_factor s : ℚ) : ℝ) ≤
      flux * 0.00005 * 1 * 1 * (lf₀ : ℚ) * ((solar_factor s : ℚ) : ℝ) := this
    _ = flux * 0.00005 * ((1 : ℚ) : ℝ) * 1 * (lf₀ : ℚ) * ((solar_factor s : ℚ) : ℝ) := by
        norm_num

/-- C10 witness: flux 100, 10 days, thickness 5 cm, sea level, solar
index 50 — aluminum shielding gives daily dose 0.0035·exp(−0.5), below
the unshielded 0.005. -/
theorem C10_witness :
    (0:ℝ) ≤ 100 ∧ ("Aluminum" = "Aluminum" ∨ "Aluminum" = "Polyethylene") ∧
    estimate 100 10 "None" 5 "Sea Level" 50 false 30 "Male" "No" =
      .ok ⟨0.005, 0.05, 0.00025⟩ ∧
    estimate 100 10 "Aluminum" 5 "Sea Level" 50 false 30 "Male" "No" =
      .ok aluminumSampleResult ∧
    aluminumSampleResult.daily_dose ≤ (DoseResult.mk 0.005 0.05 0.00025).daily_dose := by
  have hnone : estimate (100:ℝ) 10 "None" 5 "Sea Level" 50 false 30 "Male" "No" =
      .ok ⟨0.005, 0.05, 0.00025⟩ := by
    rw [estimate, shield_factors_none, location_factors_sea]
    simp only [attenuation_factor_none, solar_factor_fifty, flare_days, normal_days,
      adjust_risk, String.reduceEq, reduceIte]
    norm_num
  have halum : estimate (100:ℝ) 10 "Aluminum" 5 "Sea Level" 50 false 30 "Male" "No" =
      .ok aluminumSampleResult := by
    rw [estimate, shield_factors_aluminum, location_factors_sea]
    simp only [attenuation_factor, ne_eq, String.reduceEq, not_false_eq_true, reduceIte,
      solar_factor_fifty, flare_days, normal_days, adjust_risk, aluminumSampleResult]
    norm_num
    ring_nf
    norm_num
  exact ⟨by norm_num, Or.inl rfl, hnone, halum,
    C10_shielding_never_increases_dose 100 10 5 "Sea Level" 50 false 30 "Male" "No"
      "Aluminum" ⟨0.005, 0.05, 0.00025⟩ aluminumSampleResult (by norm_num) (Or.inl rfl)
      hnone halum⟩

end App
